import Mathlib

/-!
Verification development for the instanced-rendering example
(src/instancing-229/instancing-229.cpp).

The C++ source is shallowly embedded below.  Machine integers are modelled
as `Nat`; exact real/rational quantities stand in for the `float`/`double`
arithmetic of the source (the double computation `rand() / (double)RAND_MAX`
is modelled as an exact rational, and truncation to `uint32_t` as `Nat`
division); positions and radii, which involve `sqrt`, are modelled over `ℝ`.
-/

set_option maxHeartbeats 1000000

namespace Instancing

/-! ## Constants from the source (lines 28-37) -/

def instanceTargetCount : ℕ := 2048

def ringCount : ℕ := 6

def randMaxC : ℕ := 2147483647

/-! ## InstanceData record layout (lines 79-84)

`InstanceData` is `{glm::vec3 pos; glm::vec3 rot; float scale; uint32_t
texIndex}`.  All members have 4-byte alignment, so the struct has size
12 + 12 + 4 + 4 = 32 with no padding.  The byte offsets of the four fields
and the total size are modelled explicitly. -/

def posFieldOffset : ℕ := 0

def rotFieldOffset : ℕ := posFieldOffset + 3 * 4

def scaleFieldOffset : ℕ := rotFieldOffset + 3 * 4

def texIndexFieldOffset : ℕ := scaleFieldOffset + 4

def sizeofInstanceData : ℕ := texIndexFieldOffset + 4

/-! ## prepareInstanceData loop structure (lines 774-812)

`numInChunk = INSTANCE_COUNT / rings.size()` (integer division); the nested
loops write `instanceData[instIdInChunk + ringId*numInChunk]` for
`instIdInChunk` in `[0, numInChunk)` and `ringId` in `[0, rings.size())`.
`writtenIndices n k` lists the flat indices written, in loop order
(outer loop over the chunk index, inner loop over the ring index). -/

def writtenIndices (n k : ℕ) : List ℕ :=
  (List.range (n / k)).flatMap fun c => (List.range k).map fun r => c + r * (n / k)

/-- The flat-index map `(c, r) ↦ c + r*q` is injective for `c < q`. -/
theorem flatIndex_inj {q c c' r r' : ℕ} (hq : 0 < q) (hc : c < q) (hc' : c' < q)
    (h : c + r * q = c' + r' * q) : c = c' ∧ r = r' := by
  have hmod : (c + r * q) % q = (c' + r' * q) % q := by rw [h]
  rw [Nat.add_mul_mod_self_right, Nat.add_mul_mod_self_right,
    Nat.mod_eq_of_lt hc, Nat.mod_eq_of_lt hc'] at hmod
  subst hmod
  refine ⟨rfl, ?_⟩
  have hrq : r * q = r' * q := by omega
  exact Nat.eq_of_mul_eq_mul_right hq hrq

theorem mem_writtenIndices {n k i : ℕ} :
    i ∈ writtenIndices n k ↔ ∃ c, c < n / k ∧ ∃ r, r < k ∧ i = c + r * (n / k) := by
  simp only [writtenIndices, List.mem_flatMap, List.mem_map, List.mem_range]
  constructor
  · rintro ⟨c, hc, r, hr, rfl⟩
    exact ⟨c, hc, r, hr, rfl⟩
  · rintro ⟨c, hc, r, hr, rfl⟩
    exact ⟨c, hc, r, hr, rfl⟩

theorem writtenIndices_length (n k : ℕ) : (writtenIndices n k).length = (n / k) * k := by
  simp only [writtenIndices, List.length_flatMap, Function.comp_def, List.length_map,
    List.length_range]
  rw [List.map_const', List.sum_replicate, List.length_range, smul_eq_mul]

theorem writtenIndices_nodup (n k : ℕ) (hq : 0 < n / k) : (writtenIndices n k).Nodup := by
  rw [writtenIndices, List.nodup_flatMap]
  constructor
  · intro c _
    refine List.Nodup.map ?_ (List.nodup_range k)
    intro r r' hrr
    have h : r * (n / k) = r' * (n / k) := Nat.add_left_cancel hrr
    exact Nat.eq_of_mul_eq_mul_right hq h
  · refine List.Pairwise.imp_of_mem ?_ (List.pairwise_lt_range (n / k))
    intro c c' hc hc' hlt
    simp only [Function.onFun, List.disjoint_left, List.mem_map, List.mem_range]
    rintro x ⟨r, hr, rfl⟩ ⟨r', hr', hx⟩
    have hcq : c < n / k := List.mem_range.mp hc
    have hcq' : c' < n / k := List.mem_range.mp hc'
    have h := flatIndex_inj hq hcq hcq' hx.symm
    omega

/-! ## Per-record arithmetic (lines 769-772, 803-810)

Each loop iteration draws, in order, one uniform for the radius, one for
the angle, one for the vertical jitter, three for the rotation, two for the
scale, and one `rand()` value for the texture index.  The draws consumed by
iteration `t` (iterations numbered in loop order) are bundled in
`RecDraws t`.  The scale is `(1.5 + u1 - u2)` (line 808) later multiplied
by `0.75` (line 810); the texture index is
`uint32_t(layerCount * (rand() / (double)RAND_MAX))` (lines 769-772, 809),
i.e. exact value `layerCount * r / RAND_MAX` truncated. -/

structure RecDraws where
  uRho : ℚ
  uTheta : ℚ
  uY : ℚ
  uRotX : ℚ
  uRotY : ℚ
  uRotZ : ℚ
  u1 : ℚ
  u2 : ℚ
  rTex : ℕ

/-- The computable fields of an `InstanceData` record.  The position and
rotation components involve `sqrt`/`cos`/`sin`/`π` and are modelled
separately over `ℝ` (see `rho` below). -/
structure InstanceRec where
  scale : ℚ
  texIndex : ℕ
deriving DecidableEq

/-- `std::vector<InstanceData>::resize` value-initializes the new elements:
`InstanceData` has no user-provided default constructor, so every new
element is zero-initialized (scale `0`, texture index `0`). -/
def defaultRec : InstanceRec := ⟨0, 0⟩

def scaleOf (u1 u2 : ℚ) : ℚ := (3/2 + u1 - u2) * (3/4)

def texIndexOf (layerCount r : ℕ) : ℕ := layerCount * r / randMaxC

def mkRec (layerCount : ℕ) (d : RecDraws) : InstanceRec :=
  ⟨scaleOf d.u1 d.u2, texIndexOf layerCount d.rTex⟩

/-! ## The generation loop as a state transformer (lines 796-812)

The buffer is a total map from flat index to record; `writeAt` is one
assignment `instanceData[i] = v`.  `ringLoop L q k draws c r` runs the
inner loop body for ring indices `0, …, r-1` of chunk `c` (with
`q = numInChunk`); `chunkLoop … c` runs the outer loop for chunk indices
`0, …, c-1`.  `genBuffer` is the whole loop starting from the
value-initialized vector. -/

def writeAt (buf : ℕ → InstanceRec) (i : ℕ) (v : InstanceRec) : ℕ → InstanceRec :=
  fun j => if j = i then v else buf j

def ringLoop (L q k : ℕ) (draws : ℕ → RecDraws) (c : ℕ) :
    ℕ → (ℕ → InstanceRec) → (ℕ → InstanceRec)
  | 0, buf => buf
  | r + 1, buf => writeAt (ringLoop L q k draws c r buf) (c + r * q) (mkRec L (draws (c * k + r)))

def chunkLoop (L q k : ℕ) (draws : ℕ → RecDraws) :
    ℕ → (ℕ → InstanceRec) → (ℕ → InstanceRec)
  | 0, buf => buf
  | c + 1, buf => ringLoop L q k draws c k (chunkLoop L q k draws c buf)

def genBuffer (L n k : ℕ) (draws : ℕ → RecDraws) : ℕ → InstanceRec :=
  chunkLoop L (n / k) k draws (n / k) (fun _ => defaultRec)

/-- The inner loop leaves indices it does not write untouched. -/
theorem ringLoop_ne (L q k : ℕ) (draws : ℕ → RecDraws) (c : ℕ) :
    ∀ r buf j, (∀ r', r' < r → j ≠ c + r' * q) →
      ringLoop L q k draws c r buf j = buf j := by
  intro r
  induction r with
  | zero => intro buf j _; rfl
  | succ r ih =>
    intro buf j h
    have hne : j ≠ c + r * q := h r (Nat.lt_succ_self r)
    simp only [ringLoop, writeAt, if_neg hne]
    exact ih buf j fun r' hr' => h r' (Nat.lt_succ_of_lt hr')

/-- The inner loop writes `mkRec L (draws (c*k + r0))` at flat index
`c + r0*q`. -/
theorem ringLoop_hit (L q k : ℕ) (draws : ℕ → RecDraws) (c : ℕ) (hq : 0 < q) :
    ∀ r buf r0, r0 < r →
      ringLoop L q k draws c r buf (c + r0 * q) = mkRec L (draws (c * k + r0)) := by
  intro r
  induction r with
  | zero => intro buf r0 h; omega
  | succ r ih =>
    intro buf r0 h
    rcases Nat.lt_succ_iff_lt_or_eq.mp h with h' | rfl
    · have hne : c + r0 * q ≠ c + r * q := by
        intro he
        have := Nat.eq_of_mul_eq_mul_right hq (Nat.add_left_cancel he)
        omega
      simp only [ringLoop, writeAt, if_neg hne]
      exact ih buf r0 h'
    · simp [ringLoop, writeAt]

/-- The outer loop leaves indices written by no chunk untouched. -/
theorem chunkLoop_ne (L q k : ℕ) (draws : ℕ → RecDraws) :
    ∀ c buf j, (∀ c' r', c' < c → r' < k → j ≠ c' + r' * q) →
      chunkLoop L q k draws c buf j = buf j := by
  intro c
  induction c with
  | zero => intro buf j _; rfl
  | succ c ih =>
    intro buf j h
    show ringLoop L q k draws c k (chunkLoop L q k draws c buf) j = buf j
    rw [ringLoop_ne L q k draws c k _ j
      (fun r' hr' => h c r' (Nat.lt_succ_self c) hr')]
    exact ih buf j fun c' r' hc' hr' => h c' r' (Nat.lt_succ_of_lt hc') hr'

/-- The outer loop writes `mkRec L (draws (c0*k + r0))` at flat index
`c0 + r0*q`, for every chunk `c0 < c ≤ q` and ring `r0 < k`. -/
theorem chunkLoop_hit (L q k : ℕ) (draws : ℕ → RecDraws) (hq : 0 < q) :
    ∀ c buf c0 r0, c ≤ q → c0 < c → r0 < k →
      chunkLoop L q k draws c buf (c0 + r0 * q) = mkRec L (draws (c0 * k + r0)) := by
  intro c
  induction c with
  | zero => intro buf c0 r0 _ h _; omega
  | succ c ih =>
    intro buf c0 r0 hcq h hr0
    show ringLoop L q k draws c k (chunkLoop L q k draws c buf) (c0 + r0 * q) = _
    rcases Nat.lt_succ_iff_lt_or_eq.mp h with h' | rfl
    · rw [ringLoop_ne L q k draws c k _ _ ?_]
      · exact ih buf c0 r0 (Nat.le_of_succ_le hcq) h' hr0
      · intro r' _ he
        have hc0q : c0 < q := Nat.lt_of_lt_of_le h' (Nat.le_of_succ_le hcq)
        have hcq' : c < q := hcq
        exact absurd (flatIndex_inj hq hc0q hcq' he).1 (Nat.ne_of_lt h')
    · exact ringLoop_hit L q k draws c0 hq k _ r0 hr0

/-- `genBuffer` at a written flat index `c + r*(n/k)` holds the record built
from the draws of loop iteration `c*k + r`. -/
theorem genBuffer_written (L n k : ℕ) (draws : ℕ → RecDraws) {c r : ℕ}
    (hc : c < n / k) (hr : r < k) :
    genBuffer L n k draws (c + r * (n / k)) = mkRec L (draws (c * k + r)) :=
  chunkLoop_hit L (n / k) k draws (Nat.pos_of_ne_zero fun h0 => by omega) (n / k) _ c r
    (Nat.le_refl _) hc hr

/-- `genBuffer` at an index no loop iteration writes still holds the
value-initialized record. -/
theorem genBuffer_unwritten (L n k : ℕ) (draws : ℕ → RecDraws) {j : ℕ}
    (h : ∀ c r, c < n / k → r < k → j ≠ c + r * (n / k)) :
    genBuffer L n k draws j = defaultRec :=
  chunkLoop_ne L (n / k) k draws (n / k) _ j h

/-! ## Instance buffer sizing and upload (lines 776-777, 814, 841-852)

`instanceData.resize(INSTANCE_COUNT)` fixes the vector length at 2048;
`instanceBuffer.size = instanceData.size() * sizeof(InstanceData)`
(line 814); the staging copy region is `copyRegion.size =
instanceBuffer.size` (line 844), and both the staging and the device-local
buffer are created with `instanceBuffer.size` bytes. -/

def instanceDataLen : ℕ := instanceTargetCount

def instanceBufferSize : ℕ := instanceDataLen * sizeofInstanceData

def copyRegionSize : ℕ := instanceBufferSize

def producedRecordCount : ℕ := (writtenIndices instanceTargetCount ringCount).length

/-! ## Ring radius sampling (line 803)

`rho = sqrt((outer² - inner²) * U + inner²)` with `U` the uniform draw;
modelled over `ℝ`. -/

noncomputable def rho (inner outer u : ℝ) : ℝ :=
  Real.sqrt ((outer ^ 2 - inner ^ 2) * u + inner ^ 2)

/-! ## Light-intensity smoothing and the frame-delta clamp
(lines 895-896, 977)

`k = 0.25 * frameTimer`; `lightInt = LIGHT_INTENSITY*k + lightInt*(1-k)`
with `LIGHT_INTENSITY = 70`.  `render()` clamps `frameTimer` to at most
`0.1` before any update. -/

def lightIntUpdate (x dt : ℚ) : ℚ := 70 * (1/4 * dt) + x * (1 - 1/4 * dt)

def frameTimerClamp (dt : ℚ) : ℚ := if 1/10 < dt then 1/10 else dt

/-! ## Sample-count selection and the MSAA assertion
(lines 180, 945-957, 959-961)

`getMaxUsableSampleCount` takes the numeric minimum of the two
device-reported sample-count masks and returns the highest flag bit among
64, 32, 16, 8, 4, 2 present in it, else 1 (`VK_SAMPLE_COUNT_1_BIT`).
`setupMultisampleTarget` asserts `colorMask >= sampleCount &&
depthMask >= sampleCount` (numeric comparisons, line 180). -/

def getMaxUsableSampleCount (colorMask depthMask : ℕ) : ℕ :=
  let counts := min colorMask depthMask
  if counts &&& 64 ≠ 0 then 64
  else if counts &&& 32 ≠ 0 then 32
  else if counts &&& 16 ≠ 0 then 16
  else if counts &&& 8 ≠ 0 then 8
  else if counts &&& 4 ≠ 0 then 4
  else if counts &&& 2 ≠ 0 then 2
  else 1

def msaaAssertOk (colorMask depthMask sc : ℕ) : Prop :=
  sc ≤ colorMask ∧ sc ≤ depthMask

/-- The steps of `prepare()` (lines 959-972), in program order. -/
inductive PrepStep where
  | fixSampleCount
  | basePrepare
  | loadAssets
  | prepareInstanceData
  | prepareUniformBuffers
  | setupDescriptorSetLayout
  | preparePipelines
  | setupDescriptorPool
  | setupDescriptorSet
  | buildCommandBuffers
deriving DecidableEq

def prepareSteps : List PrepStep :=
  [.fixSampleCount, .basePrepare, .loadAssets, .prepareInstanceData,
   .prepareUniformBuffers, .setupDescriptorSetLayout, .preparePipelines,
   .setupDescriptorPool, .setupDescriptorSet, .buildCommandBuffers]

/-! ## Render pass and framebuffer structure (lines 279-410) -/

inductive LoadOp where
  | load
  | clear
  | dontCare
deriving DecidableEq

inductive StoreOp where
  | store
  | dontCare
deriving DecidableEq

inductive ImgLayout where
  | undefined
  | colorAttachmentOptimal
  | depthStencilAttachmentOptimal
  | presentSrc
deriving DecidableEq

structure AttachmentDescription where
  format : ℕ
  samples : ℕ
  loadOp : LoadOp
  storeOp : StoreOp
  stencilLoadOp : LoadOp
  stencilStoreOp : StoreOp
  initialLayout : ImgLayout
  finalLayout : ImgLayout
deriving DecidableEq

structure AttachmentReference where
  attachment : ℕ
  layout : ImgLayout
deriving DecidableEq

structure SubpassDescription where
  colorAttachments : List AttachmentReference
  resolveAttachments : List AttachmentReference
  depthStencilAttachment : AttachmentReference
deriving DecidableEq

/-- Vulkan stage/access flag values used by the two dependencies. -/
def stageBottomOfPipe : ℕ := 8192

def stageColorAttachmentOutput : ℕ := 1024

def accessMemoryRead : ℕ := 32768

def accessColorAttachmentRead : ℕ := 128

def accessColorAttachmentWrite : ℕ := 256

/-- `srcSubpass`/`dstSubpass` use `none` for `VK_SUBPASS_EXTERNAL`. -/
structure SubpassDependency where
  srcSubpass : Option ℕ
  dstSubpass : Option ℕ
  srcStageMask : ℕ
  dstStageMask : ℕ
  srcAccessMask : ℕ
  dstAccessMask : ℕ
  byRegion : Bool
deriving DecidableEq

structure RenderPassInfo where
  attachments : List AttachmentDescription
  subpasses : List SubpassDescription
  dependencies : List SubpassDependency

/-- `setupRenderPass` (lines 279-375): the create-info it hands to
`vkCreateRenderPass`, as a function of the swapchain color format, the
depth format and the chosen sample count. -/
def setupRenderPassInfo (colorFormat depthFormat sc : ℕ) : RenderPassInfo where
  attachments :=
    [⟨colorFormat, sc, .clear, .dontCare, .dontCare, .dontCare, .undefined,
      .colorAttachmentOptimal⟩,
     ⟨colorFormat, 1, .dontCare, .store, .dontCare, .dontCare, .undefined,
      .presentSrc⟩,
     ⟨depthFormat, sc, .clear, .dontCare, .dontCare, .dontCare, .undefined,
      .depthStencilAttachmentOptimal⟩,
     ⟨depthFormat, 1, .dontCare, .store, .dontCare, .dontCare, .undefined,
      .depthStencilAttachmentOptimal⟩]
  subpasses :=
    [⟨[⟨0, .colorAttachmentOptimal⟩], [⟨1, .colorAttachmentOptimal⟩],
      ⟨2, .depthStencilAttachmentOptimal⟩⟩]
  dependencies :=
    [⟨none, some 0, stageBottomOfPipe, stageColorAttachmentOutput,
      accessMemoryRead, accessColorAttachmentRead ||| accessColorAttachmentWrite, true⟩,
     ⟨some 0, none, stageColorAttachmentOutput, stageBottomOfPipe,
      accessColorAttachmentRead ||| accessColorAttachmentWrite, accessMemoryRead, true⟩]

/-- `setupFrameBuffer` (lines 380-410): the attachment-view list bound for
one swapchain image — index 0 the multisample color view, index 1 that
image's swapchain view, index 2 the multisample depth view, index 3 the
base depth/stencil view. -/
def setupFrameBufferAttachments (msColorView msDepthView depthStencilView swapView : ℕ) :
    List ℕ :=
  [msColorView, swapView, msDepthView, depthStencilView]

/-! ## Per-frame command recording (lines 416-492) -/

inductive Cmd where
  | beginRenderPass (fb : ℕ)
  | setViewport (w h : ℕ)
  | setScissor (w h : ℕ)
  | bindDescriptorSet (ds : ℕ)
  | bindPipeline (p : ℕ)
  | bindVertexBuffer (slot : ℕ) (buf : ℕ)
  | bindIndexBuffer (buf : ℕ)
  | draw (vertexCount instanceCount : ℕ)
  | drawIndexed (indexCount instanceCount : ℕ)
  | endRenderPass
deriving DecidableEq

/-- The GPU objects `buildCommandBuffers` reads: per-group pipelines and
descriptor sets, mesh vertex/index buffers and index counts, the instance
buffer, and the surface extent.  Handles are abstract naturals. -/
structure RenderState where
  starfieldPipeline : ℕ
  planetPipeline : ℕ
  lightPipeline : ℕ
  constructPipeline : ℕ
  instancedRocksPipeline : ℕ
  planetDescrSet : ℕ
  lightDescrSet : ℕ
  constructDescrSet : ℕ
  instancedRocksDescrSet : ℕ
  planetVB : ℕ
  planetIB : ℕ
  planetIndexCount : ℕ
  lightVB : ℕ
  lightIB : ℕ
  lightIndexCount : ℕ
  constructVB : ℕ
  constructIB : ℕ
  constructIndexCount : ℕ
  rockVB : ℕ
  rockIB : ℕ
  rockIndexCount : ℕ
  instanceBuf : ℕ
  width : ℕ
  height : ℕ

/-- The command sequence recorded for one swapchain image (loop body of
`buildCommandBuffers`, lines 432-491). -/
def buildFrameCmds (s : RenderState) (fb : ℕ) : List Cmd :=
  [.beginRenderPass fb,
   .setViewport s.width s.height,
   .setScissor s.width s.height,
   -- Star field (lines 449-452): note the *planet* descriptor set
   .bindDescriptorSet s.planetDescrSet,
   .bindPipeline s.starfieldPipeline,
   .draw 4 1,
   -- Planet (lines 454-459)
   .bindDescriptorSet s.planetDescrSet,
   .bindPipeline s.planetPipeline,
   .bindVertexBuffer 0 s.planetVB,
   .bindIndexBuffer s.planetIB,
   .drawIndexed s.planetIndexCount 1,
   -- Light (lines 461-466)
   .bindDescriptorSet s.lightDescrSet,
   .bindPipeline s.lightPipeline,
   .bindVertexBuffer 0 s.lightVB,
   .bindIndexBuffer s.lightIB,
   .drawIndexed s.lightIndexCount 1,
   -- Construct (lines 468-473)
   .bindDescriptorSet s.constructDescrSet,
   .bindPipeline s.constructPipeline,
   .bindVertexBuffer 0 s.constructVB,
   .bindIndexBuffer s.constructIB,
   .drawIndexed s.constructIndexCount 1,
   -- Instanced rocks (lines 475-486)
   .bindDescriptorSet s.instancedRocksDescrSet,
   .bindPipeline s.instancedRocksPipeline,
   .bindVertexBuffer 0 s.rockVB,
   .bindVertexBuffer 1 s.instanceBuf,
   .bindIndexBuffer s.rockIB,
   .drawIndexed s.rockIndexCount instanceTargetCount,
   .endRenderPass]

/-- One sequence per swapchain image (outer loop, line 432). -/
def buildAllCmds (s : RenderState) (fbs : List ℕ) : List (List Cmd) :=
  fbs.map (buildFrameCmds s)

def isDrawCmd : Cmd → Bool
  | .draw _ _ => true
  | .drawIndexed _ _ => true
  | _ => false

def isBufferBindCmd : Cmd → Bool
  | .bindVertexBuffer _ _ => true
  | .bindIndexBuffer _ => true
  | _ => false

def isDescrBindCmd : Cmd → Bool
  | .bindDescriptorSet _ => true
  | _ => false

def isSlotOneVertexBind : Cmd → Bool
  | .bindVertexBuffer 1 _ => true
  | _ => false

/-! ## Descriptor pool and set allocation (lines 30, 527-543, 576-615) -/

inductive DescriptorType where
  | uniformBuffer
  | combinedImageSampler
deriving DecidableEq

/-- `DESCRIPTOR_COUNT` (line 30). -/
def descriptorBudget : ℕ := 4

/-- `setupDescriptorPool` pool sizes (lines 530-534). -/
def descriptorPoolSizes : List (DescriptorType × ℕ) :=
  [(.uniformBuffer, descriptorBudget), (.combinedImageSampler, descriptorBudget)]

/-- `maxSets` handed to `vkCreateDescriptorPool` (line 540). -/
def descriptorPoolMaxSets : ℕ := descriptorBudget

/-- The descriptor sets `setupDescriptorSet` allocates, in program order
(lines 584, 592, 600, 608).  The starfield group allocates none. -/
def allocatedDescriptorSets (s : RenderState) : List ℕ :=
  [s.instancedRocksDescrSet, s.planetDescrSet, s.lightDescrSet, s.constructDescrSet]

/-! ## Claim theorems -/

/-- C1: with N = 2048 target instances and K = 6 rings, the placement loop
populates exactly floor(N/K)·K = 2046 records, not N: the flat indices
written are exactly `c + r*floor(N/K)` for `c < floor(N/K)` and `r < K`,
each written once, and no other index is written. -/
theorem C1_instance_placement :
    (writtenIndices instanceTargetCount ringCount).length =
      (instanceTargetCount / ringCount) * ringCount
    ∧ (writtenIndices instanceTargetCount ringCount).length = 2046
    ∧ (writtenIndices instanceTargetCount ringCount).length ≠ instanceTargetCount
    ∧ (writtenIndices instanceTargetCount ringCount).Nodup
    ∧ ∀ i, i ∈ writtenIndices instanceTargetCount ringCount ↔
        ∃ c, c < instanceTargetCount / ringCount ∧
          ∃ r, r < ringCount ∧ i = c + r * (instanceTargetCount / ringCount) := by
  have hlen := writtenIndices_length instanceTargetCount ringCount
  refine ⟨hlen, ?_, ?_, writtenIndices_nodup _ _ (by decide), fun i => mem_writtenIndices⟩
  · rw [hlen]; decide
  · rw [hlen]; decide

/-- Constant draw stream whose `rand()` component always returns
`RAND_MAX`, the largest value `rand()` can produce. -/
def maxTexDraws : ℕ → RecDraws := fun _ => ⟨0, 0, 0, 0, 0, 0, 0, 0, randMaxC⟩

/-- C2 counterexample: when the `rand()` draw equals `RAND_MAX`, the record
the generator writes at flat index 0 gets texture index exactly
L = 6, which is not in [0, 6). -/
theorem C2_texindex_counterexample :
    (genBuffer 6 instanceTargetCount ringCount maxTexDraws 0).texIndex = 6
    ∧ ¬ (genBuffer 6 instanceTargetCount ringCount maxTexDraws 0).texIndex < 6 := by
  have h := genBuffer_written 6 instanceTargetCount ringCount maxTexDraws
    (c := 0) (r := 0) (by decide) (by decide)
  simp only [Nat.zero_mul, Nat.zero_add, Nat.add_zero] at h
  rw [h]
  decide

/-- C2 (amended): every record the generator writes has texture index in
[0, L] (closed at L), and the index equals L exactly when that record's
`rand()` draw is `RAND_MAX`; for draws below `RAND_MAX` the index is in
[0, L) as the original claim states. -/
theorem C2_texindex_range_amended :
    ∀ (L : ℕ) (draws : ℕ → RecDraws) (c r : ℕ),
      c < instanceTargetCount / ringCount → r < ringCount →
      (draws (c * ringCount + r)).rTex ≤ randMaxC → 1 ≤ L →
      (genBuffer L instanceTargetCount ringCount draws
          (c + r * (instanceTargetCount / ringCount))).texIndex ≤ L
      ∧ ((genBuffer L instanceTargetCount ringCount draws
            (c + r * (instanceTargetCount / ringCount))).texIndex = L ↔
          (draws (c * ringCount + r)).rTex = randMaxC) := by
  intro L draws c r hc hr hrm hL
  rw [genBuffer_written L instanceTargetCount ringCount draws hc hr]
  simp only [mkRec, texIndexOf]
  set x := (draws (c * ringCount + r)).rTex with hx
  have hRM : 0 < randMaxC := by decide
  have hle : L * x / randMaxC ≤ L := by
    calc L * x / randMaxC ≤ L * randMaxC / randMaxC :=
          Nat.div_le_div_right (Nat.mul_le_mul_left L hrm)
    _ = L := Nat.mul_div_cancel L hRM
  refine ⟨hle, ?_, ?_⟩
  · intro he
    have h1 : L ≤ L * x / randMaxC := he.ge
    have h2 : L * randMaxC ≤ L * x := (Nat.le_div_iff_mul_le hRM).mp h1
    have h3 : randMaxC ≤ x := Nat.le_of_mul_le_mul_left h2 hL
    omega
  · intro he
    rw [he, Nat.mul_div_cancel L hRM]

/-- C2 witness: the amended bound at the `RAND_MAX` draw. -/
theorem C2_texindex_range_amended_witness :
    (0 < instanceTargetCount / ringCount ∧ 0 < ringCount ∧
      (maxTexDraws 0).rTex ≤ randMaxC ∧ 1 ≤ 6)
    ∧ ((genBuffer 6 instanceTargetCount ringCount maxTexDraws
          (0 + 0 * (instanceTargetCount / ringCount))).texIndex ≤ 6
      ∧ ((genBuffer 6 instanceTargetCount ringCount maxTexDraws
            (0 + 0 * (instanceTargetCount / ringCount))).texIndex = 6 ↔
          (maxTexDraws (0 * ringCount + 0)).rTex = randMaxC)) :=
  ⟨by decide,
   C2_texindex_range_amended 6 maxTexDraws 0 0 (by decide) (by decide) (by decide) (by decide)⟩

/-- C3: for every ring with 0 ≤ inner < outer and every uniform draw
U ∈ [0,1), the sampled radius sqrt((outer²−inner²)·U + inner²) lies in
[inner, outer). -/
theorem C3_radius_in_ring :
    ∀ (inner outer u : ℝ), 0 ≤ inner → inner < outer → 0 ≤ u → u < 1 →
      inner ≤ rho inner outer u ∧ rho inner outer u < outer := by
  intro i o u hi hio hu hu1
  have ho : 0 < o := lt_of_le_of_lt hi hio
  have hsq : i ^ 2 < o ^ 2 := by nlinarith
  have hx0 : i ^ 2 ≤ (o ^ 2 - i ^ 2) * u + i ^ 2 := by nlinarith
  have hx1 : (o ^ 2 - i ^ 2) * u + i ^ 2 < o ^ 2 := by nlinarith
  have hxnn : 0 ≤ (o ^ 2 - i ^ 2) * u + i ^ 2 := by nlinarith
  constructor
  · rw [rho]
    exact (Real.le_sqrt hi hxnn).mpr hx0
  · rw [rho]
    exact (Real.sqrt_lt' ho).mpr hx1

/-- C3 witness: ring (5, 7) at U = 0 gives radius 5 ∈ [5, 7). -/
theorem C3_radius_in_ring_witness :
    ((0:ℝ) ≤ 5 ∧ (5:ℝ) < 7 ∧ (0:ℝ) ≤ 0 ∧ (0:ℝ) < 1)
    ∧ ((5:ℝ) ≤ rho 5 7 0 ∧ rho 5 7 0 < 7) :=
  ⟨by norm_num,
   C3_radius_in_ring 5 7 0 (by norm_num) (by norm_num) le_rfl (by norm_num)⟩

/-- C4 counterexample: the device-local buffer is sized from the full
2048-element vector, not from the 2046 records the generator produces:
2048·32 = 65536 ≠ 2046·32. -/
theorem C4_buffer_size_counterexample :
    instanceBufferSize ≠ producedRecordCount * sizeofInstanceData := by
  rw [producedRecordCount, writtenIndices_length]
  decide

/-- C4 (amended): the buffer byte size equals the allocated vector length
(the N = 2048 target count) times the 32-byte record size — two unwritten
records more than the 2046 the generator produces — and the staging copy
transfers exactly that many bytes; the record itself is packed with no
padding (offsets 0, 12, 24, 28, size 32). -/
theorem C4_buffer_size_amended :
    instanceBufferSize = instanceDataLen * sizeofInstanceData
    ∧ instanceDataLen = 2048
    ∧ sizeofInstanceData = 32
    ∧ posFieldOffset = 0 ∧ rotFieldOffset = 12 ∧ scaleFieldOffset = 24
    ∧ texIndexFieldOffset = 28
    ∧ producedRecordCount = 2046
    ∧ copyRegionSize = instanceBufferSize
    ∧ instanceBufferSize = producedRecordCount * sizeofInstanceData + 2 * sizeofInstanceData := by
  have hp : producedRecordCount = 2046 := by
    rw [producedRecordCount, writtenIndices_length]; decide
  refine ⟨rfl, rfl, rfl, rfl, rfl, rfl, rfl, hp, rfl, ?_⟩
  rw [hp]
  decide

/-- The all-zero draw stream. -/
def zeroDraws : ℕ → RecDraws := fun _ => ⟨0, 0, 0, 0, 0, 0, 0, 0, 0⟩

/-- C5 counterexample: record 2046 of the uploaded 2048-record buffer is
never written by the generator and keeps its value-initialized scale 0,
so not every record of the buffer has scale > 0. -/
theorem C5_scale_counterexample :
    ¬ 0 < (genBuffer 6 instanceTargetCount ringCount zeroDraws 2046).scale := by
  have h := genBuffer_unwritten 6 instanceTargetCount ringCount zeroDraws (j := 2046) ?_
  · rw [h]; decide
  · intro c r hc hr
    have hq : instanceTargetCount / ringCount = 341 := by decide
    rw [hq] at hc ⊢
    have hr6 : r < 6 := hr
    omega

/-- C5 (amended): every record the generator writes has scale
(1.5 + U₁ − U₂)·0.75 ∈ (0.375, 1.875), hence > 0; the two buffer slots at
flat indices 2046 and 2047 are beyond the floor-adjusted count, are never
written, and keep the value-initialized scale 0. -/
theorem C5_scale_amended :
    ∀ (L : ℕ) (draws : ℕ → RecDraws) (c r : ℕ),
      c < instanceTargetCount / ringCount → r < ringCount →
      0 ≤ (draws (c * ringCount + r)).u1 → (draws (c * ringCount + r)).u1 < 1 →
      0 ≤ (draws (c * ringCount + r)).u2 → (draws (c * ringCount + r)).u2 < 1 →
      ((genBuffer L instanceTargetCount ringCount draws
          (c + r * (instanceTargetCount / ringCount))).scale
            = scaleOf (draws (c * ringCount + r)).u1 (draws (c * ringCount + r)).u2
        ∧ 3/8 < (genBuffer L instanceTargetCount ringCount draws
            (c + r * (instanceTargetCount / ringCount))).scale
        ∧ (genBuffer L instanceTargetCount ringCount draws
            (c + r * (instanceTargetCount / ringCount))).scale < 15/8
        ∧ 0 < (genBuffer L instanceTargetCount ringCount draws
            (c + r * (instanceTargetCount / ringCount))).scale)
      ∧ (genBuffer L instanceTargetCount ringCount draws 2046).scale = 0
      ∧ (genBuffer L instanceTargetCount ringCount draws 2047).scale = 0 := by
  intro L draws c r hc hr h10 h11 h20 h21
  have hunwritten : ∀ j, j = 2046 ∨ j = 2047 →
      (genBuffer L instanceTargetCount ringCount draws j).scale = 0 := by
    intro j hj
    have h := genBuffer_unwritten L instanceTargetCount ringCount draws (j := j) ?_
    · rw [h]; rfl
    · intro c' r' hc' hr'
      have hq : instanceTargetCount / ringCount = 341 := by decide
      rw [hq] at hc' ⊢
      have hr6 : r' < 6 := hr'
      omega
  refine ⟨?_, hunwritten 2046 (Or.inl rfl), hunwritten 2047 (Or.inr rfl)⟩
  rw [genBuffer_written L instanceTargetCount ringCount draws hc hr]
  have hs : (mkRec L (draws (c * ringCount + r))).scale
      = (3/2 + (draws (c * ringCount + r)).u1 - (draws (c * ringCount + r)).u2) * (3/4) := rfl
  rw [hs]
  refine ⟨rfl, by nlinarith, by nlinarith, by nlinarith⟩

/-- C5 witness: at the all-zero draws the record written at flat index 0
has scale 1.125 ∈ (0.375, 1.875), and slots 2046, 2047 hold scale 0. -/
theorem C5_scale_amended_witness :
    (0 < instanceTargetCount / ringCount ∧ 0 < ringCount
      ∧ (0:ℚ) ≤ (zeroDraws 0).u1 ∧ (zeroDraws 0).u1 < 1
      ∧ (0:ℚ) ≤ (zeroDraws 0).u2 ∧ (zeroDraws 0).u2 < 1)
    ∧ (((genBuffer 6 instanceTargetCount ringCount zeroDraws
          (0 + 0 * (instanceTargetCount / ringCount))).scale
            = scaleOf (zeroDraws (0 * ringCount + 0)).u1 (zeroDraws (0 * ringCount + 0)).u2
        ∧ 3/8 < (genBuffer 6 instanceTargetCount ringCount zeroDraws
            (0 + 0 * (instanceTargetCount / ringCount))).scale
        ∧ (genBuffer 6 instanceTargetCount ringCount zeroDraws
            (0 + 0 * (instanceTargetCount / ringCount))).scale < 15/8
        ∧ 0 < (genBuffer 6 instanceTargetCount ringCount zeroDraws
            (0 + 0 * (instanceTargetCount / ringCount))).scale)
      ∧ (genBuffer 6 instanceTargetCount ringCount zeroDraws 2046).scale = 0
      ∧ (genBuffer 6 instanceTargetCount ringCount zeroDraws 2047).scale = 0) :=
  ⟨by decide,
   C5_scale_amended 6 zeroDraws 0 0 (by decide) (by decide)
     (by decide) (by decide) (by decide) (by decide)⟩

/-- C6: each frame records the five groups in order starfield, planet,
light, construct, instanced-rocks with exactly one draw each — non-indexed
with vertex count 4 for the starfield (with no vertex/index buffer bound
before its draw), indexed with instance count 1 for planet/light/construct,
indexed with instance count N = 2048 for the rocks, which alone bind a
vertex buffer at slot 1 (the instance buffer, directly before their draw) —
and recording from equal state yields identical sequences. -/
theorem C6_frame_command_sequence :
    ∀ (s s' : RenderState) (fb : ℕ), s = s' →
      (buildFrameCmds s fb).filter isDrawCmd =
        [.draw 4 1, .drawIndexed s.planetIndexCount 1, .drawIndexed s.lightIndexCount 1,
         .drawIndexed s.constructIndexCount 1,
         .drawIndexed s.rockIndexCount instanceTargetCount]
      ∧ instanceTargetCount = 2048
      ∧ ((buildFrameCmds s fb).takeWhile (fun c => !isDrawCmd c)).filter isBufferBindCmd = []
      ∧ (buildFrameCmds s fb).filter isSlotOneVertexBind =
          [.bindVertexBuffer 1 s.instanceBuf]
      ∧ (∃ pre post, pre ++
          [.bindDescriptorSet s.instancedRocksDescrSet,
           .bindPipeline s.instancedRocksPipeline,
           .bindVertexBuffer 0 s.rockVB,
           .bindVertexBuffer 1 s.instanceBuf,
           .bindIndexBuffer s.rockIB,
           .drawIndexed s.rockIndexCount instanceTargetCount] ++ post
          = buildFrameCmds s fb)
      ∧ buildFrameCmds s fb = buildFrameCmds s' fb := by
  rintro s s' fb rfl
  refine ⟨rfl, rfl, rfl, rfl, ?_, rfl⟩
  exact ⟨[.beginRenderPass fb,
          .setViewport s.width s.height,
          .setScissor s.width s.height,
          .bindDescriptorSet s.planetDescrSet,
          .bindPipeline s.starfieldPipeline,
          .draw 4 1,
          .bindDescriptorSet s.planetDescrSet,
          .bindPipeline s.planetPipeline,
          .bindVertexBuffer 0 s.planetVB,
          .bindIndexBuffer s.planetIB,
          .drawIndexed s.planetIndexCount 1,
          .bindDescriptorSet s.lightDescrSet,
          .bindPipeline s.lightPipeline,
          .bindVertexBuffer 0 s.lightVB,
          .bindIndexBuffer s.lightIB,
          .drawIndexed s.lightIndexCount 1,
          .bindDescriptorSet s.constructDescrSet,
          .bindPipeline s.constructPipeline,
          .bindVertexBuffer 0 s.constructVB,
          .bindIndexBuffer s.constructIB,
          .drawIndexed s.constructIndexCount 1],
         [.endRenderPass], rfl⟩

/-- A concrete `RenderState` with pairwise distinct handles, used by the
witnesses. -/
def sampleRenderState : RenderState :=
  ⟨1, 2, 3, 4, 5, 6, 7, 8, 9, 10, 11, 12, 13, 14, 15, 16, 17, 18, 19, 20, 21, 22, 640, 480⟩

/-- C6 witness: the frame-command properties at a concrete state. -/
theorem C6_frame_command_sequence_witness :
    sampleRenderState = sampleRenderState
    ∧ ((buildFrameCmds sampleRenderState 7).filter isDrawCmd =
        [.draw 4 1, .drawIndexed sampleRenderState.planetIndexCount 1,
         .drawIndexed sampleRenderState.lightIndexCount 1,
         .drawIndexed sampleRenderState.constructIndexCount 1,
         .drawIndexed sampleRenderState.rockIndexCount instanceTargetCount]
      ∧ instanceTargetCount = 2048
      ∧ ((buildFrameCmds sampleRenderState 7).takeWhile
          (fun c => !isDrawCmd c)).filter isBufferBindCmd = []
      ∧ (buildFrameCmds sampleRenderState 7).filter isSlotOneVertexBind =
          [.bindVertexBuffer 1 sampleRenderState.instanceBuf]
      ∧ (∃ pre post, pre ++
          [.bindDescriptorSet sampleRenderState.instancedRocksDescrSet,
           .bindPipeline sampleRenderState.instancedRocksPipeline,
           .bindVertexBuffer 0 sampleRenderState.rockVB,
           .bindVertexBuffer 1 sampleRenderState.instanceBuf,
           .bindIndexBuffer sampleRenderState.rockIB,
           .drawIndexed sampleRenderState.rockIndexCount instanceTargetCount] ++ post
          = buildFrameCmds sampleRenderState 7)
      ∧ buildFrameCmds sampleRenderState 7 = buildFrameCmds sampleRenderState 7) :=
  ⟨rfl, C6_frame_command_sequence sampleRenderState sampleRenderState 7 rfl⟩

def dummyAttachment : AttachmentDescription :=
  ⟨0, 0, .load, .store, .load, .store, .undefined, .undefined⟩

def dummySubpass : SubpassDescription := ⟨[], [], ⟨0, .undefined⟩⟩

def dummyDependency : SubpassDependency := ⟨some 0, some 0, 0, 0, 0, 0, false⟩

/-- C7: the render pass always has exactly 4 attachments — [0] multisample
color (load CLEAR, store DONT_CARE), [1] single-sample present color
(store STORE), [2] multisample depth (load CLEAR, store DONT_CARE),
[3] single-sample resolve depth (store STORE) — one subpass referencing
attachments 0 (color), 1 (resolve), 2 (depth-stencil), and exactly two
by-region dependencies (external→subpass 0 and subpass 0→external); the
framebuffer binds views at exactly these indices. -/
theorem C7_render_pass_structure :
    ∀ (cf df sc v0 v1 v2 v3 : ℕ),
      (setupRenderPassInfo cf df sc).attachments.length = 4
      ∧ ((setupRenderPassInfo cf df sc).attachments.getD 0 dummyAttachment).format = cf
      ∧ ((setupRenderPassInfo cf df sc).attachments.getD 0 dummyAttachment).samples = sc
      ∧ ((setupRenderPassInfo cf df sc).attachments.getD 0 dummyAttachment).loadOp = .clear
      ∧ ((setupRenderPassInfo cf df sc).attachments.getD 0 dummyAttachment).storeOp = .dontCare
      ∧ ((setupRenderPassInfo cf df sc).attachments.getD 1 dummyAttachment).format = cf
      ∧ ((setupRenderPassInfo cf df sc).attachments.getD 1 dummyAttachment).samples = 1
      ∧ ((setupRenderPassInfo cf df sc).attachments.getD 1 dummyAttachment).storeOp = .store
      ∧ ((setupRenderPassInfo cf df sc).attachments.getD 1 dummyAttachment).finalLayout
          = .presentSrc
      ∧ ((setupRenderPassInfo cf df sc).attachments.getD 2 dummyAttachment).format = df
      ∧ ((setupRenderPassInfo cf df sc).attachments.getD 2 dummyAttachment).samples = sc
      ∧ ((setupRenderPassInfo cf df sc).attachments.getD 2 dummyAttachment).loadOp = .clear
      ∧ ((setupRenderPassInfo cf df sc).attachments.getD 2 dummyAttachment).storeOp = .dontCare
      ∧ ((setupRenderPassInfo cf df sc).attachments.getD 3 dummyAttachment).format = df
      ∧ ((setupRenderPassInfo cf df sc).attachments.getD 3 dummyAttachment).samples = 1
      ∧ ((setupRenderPassInfo cf df sc).attachments.getD 3 dummyAttachment).storeOp = .store
      ∧ (setupRenderPassInfo cf df sc).subpasses.length = 1
      ∧ ((setupRenderPassInfo cf df sc).subpasses.getD 0 dummySubpass).colorAttachments
          = [⟨0, .colorAttachmentOptimal⟩]
      ∧ ((setupRenderPassInfo cf df sc).subpasses.getD 0 dummySubpass).resolveAttachments
          = [⟨1, .colorAttachmentOptimal⟩]
      ∧ ((setupRenderPassInfo cf df sc).subpasses.getD 0 dummySubpass).depthStencilAttachment
          = ⟨2, .depthStencilAttachmentOptimal⟩
      ∧ (setupRenderPassInfo cf df sc).dependencies.length = 2
      ∧ ((setupRenderPassInfo cf df sc).dependencies.getD 0 dummyDependency).srcSubpass = none
      ∧ ((setupRenderPassInfo cf df sc).dependencies.getD 0 dummyDependency).dstSubpass = some 0
      ∧ ((setupRenderPassInfo cf df sc).dependencies.getD 0 dummyDependency).byRegion = true
      ∧ ((setupRenderPassInfo cf df sc).dependencies.getD 1 dummyDependency).srcSubpass = some 0
      ∧ ((setupRenderPassInfo cf df sc).dependencies.getD 1 dummyDependency).dstSubpass = none
      ∧ ((setupRenderPassInfo cf df sc).dependencies.getD 1 dummyDependency).byRegion = true
      ∧ setupFrameBufferAttachments v0 v2 v3 v1 = [v0, v1, v2, v3] := by
  intro cf df sc v0 v1 v2 v3
  exact ⟨rfl, rfl, rfl, rfl, rfl, rfl, rfl, rfl, rfl, rfl, rfl, rfl, rfl, rfl, rfl, rfl,
    rfl, rfl, rfl, rfl, rfl, rfl, rfl, rfl, rfl, rfl, rfl, rfl⟩

/-- A number whose bitwise AND with `2^k` is nonzero is at least `2^k`. -/
theorem le_of_and_pow_ne_zero {m b : ℕ} (k : ℕ) (hb : b = 2 ^ k) (h : m &&& b ≠ 0) :
    b ≤ m := by
  subst hb
  rw [Nat.and_two_pow] at h
  cases hbit : m.testBit k with
  | false => rw [hbit] at h; simp at h
  | true => exact Nat.testBit_implies_ge hbit

/-- The selected sample count never exceeds either device mask (numeric
comparison, as the assertion on line 180 performs). -/
theorem getMaxUsableSampleCount_le (c d : ℕ) (hc : 0 < c) (hd : 0 < d) :
    getMaxUsableSampleCount c d ≤ min c d := by
  simp only [getMaxUsableSampleCount]
  split_ifs with h1 h2 h3 h4 h5 h6
  · exact le_of_and_pow_ne_zero 6 (by norm_num) h1
  · exact le_of_and_pow_ne_zero 5 (by norm_num) h2
  · exact le_of_and_pow_ne_zero 4 (by norm_num) h3
  · exact le_of_and_pow_ne_zero 3 (by norm_num) h4
  · exact le_of_and_pow_ne_zero 2 (by norm_num) h5
  · exact le_of_and_pow_ne_zero 1 (by norm_num) h6
  · exact le_min hc hd

/-- The selected sample count dominates every sample-count flag bit present
in `min c d`: it is the highest matching bit. -/
theorem getMaxUsableSampleCount_max_bit (c d b k : ℕ) (hb : b = 2 ^ k)
    (hmem : b = 2 ∨ b = 4 ∨ b = 8 ∨ b = 16 ∨ b = 32 ∨ b = 64)
    (h : min c d &&& b ≠ 0) : b ≤ getMaxUsableSampleCount c d := by
  simp only [getMaxUsableSampleCount]
  split_ifs with h1 h2 h3 h4 h5 h6 <;>
    rcases hmem with rfl | rfl | rfl | rfl | rfl | rfl <;>
      first
        | omega
        | exact absurd h h1
        | exact absurd h h2
        | exact absurd h h3
        | exact absurd h h4
        | exact absurd h h5
        | exact absurd h h6

/-- The selected sample count is either the default 1 or a flag bit that is
actually present in `min c d`. -/
theorem getMaxUsableSampleCount_matches (c d : ℕ) :
    getMaxUsableSampleCount c d = 1 ∨ min c d &&& getMaxUsableSampleCount c d ≠ 0 := by
  simp only [getMaxUsableSampleCount]
  split_ifs with h1 h2 h3 h4 h5 h6
  · exact Or.inr h1
  · exact Or.inr h2
  · exact Or.inr h3
  · exact Or.inr h4
  · exact Or.inr h5
  · exact Or.inr h6
  · exact Or.inl rfl

/-- C8: `prepare()` fixes the sample count first, before any GPU object
construction, choosing the highest sample-count flag bit present in
min(colorMask, depthMask), default 1; for any device masks containing the
mandatory single-sample bit this choice satisfies the process-terminating
assertion of `setupMultisampleTarget`, and any configured count exceeding
either capability makes that assertion fail. -/
theorem C8_sample_count_selection :
    ∀ (c d s : ℕ), 0 < c → 0 < d →
      msaaAssertOk c d (getMaxUsableSampleCount c d)
      ∧ (¬ msaaAssertOk c d s ↔ c < s ∨ d < s)
      ∧ (min c d &&& 2 ≠ 0 → 2 ≤ getMaxUsableSampleCount c d)
      ∧ (min c d &&& 4 ≠ 0 → 4 ≤ getMaxUsableSampleCount c d)
      ∧ (min c d &&& 8 ≠ 0 → 8 ≤ getMaxUsableSampleCount c d)
      ∧ (min c d &&& 16 ≠ 0 → 16 ≤ getMaxUsableSampleCount c d)
      ∧ (min c d &&& 32 ≠ 0 → 32 ≤ getMaxUsableSampleCount c d)
      ∧ (min c d &&& 64 ≠ 0 → 64 ≤ getMaxUsableSampleCount c d)
      ∧ (getMaxUsableSampleCount c d = 1 ∨ min c d &&& getMaxUsableSampleCount c d ≠ 0)
      ∧ prepareSteps.head? = some PrepStep.fixSampleCount
      ∧ prepareSteps.count PrepStep.fixSampleCount = 1 := by
  intro c d s hc hd
  have hle := getMaxUsableSampleCount_le c d hc hd
  refine ⟨⟨le_trans hle (min_le_left c d), le_trans hle (min_le_right c d)⟩, ?_,
    getMaxUsableSampleCount_max_bit c d 2 1 (by norm_num) (by tauto),
    getMaxUsableSampleCount_max_bit c d 4 2 (by norm_num) (by tauto),
    getMaxUsableSampleCount_max_bit c d 8 3 (by norm_num) (by tauto),
    getMaxUsableSampleCount_max_bit c d 16 4 (by norm_num) (by tauto),
    getMaxUsableSampleCount_max_bit c d 32 5 (by norm_num) (by tauto),
    getMaxUsableSampleCount_max_bit c d 64 6 (by norm_num) (by tauto),
    getMaxUsableSampleCount_matches c d, rfl, rfl⟩
  rw [msaaAssertOk]
  omega

/-- C8 witness: masks 7 (counts 1, 2, 4) and 15 (counts 1, 2, 4, 8) select
sample count 4 and the assertion holds; a configured count of 8 exceeds the
color capability and the assertion fails. -/
theorem C8_sample_count_selection_witness :
    (0 < 7 ∧ 0 < 15)
    ∧ (msaaAssertOk 7 15 (getMaxUsableSampleCount 7 15)
      ∧ (¬ msaaAssertOk 7 15 8 ↔ 7 < 8 ∨ 15 < 8)
      ∧ (min 7 15 &&& 2 ≠ 0 → 2 ≤ getMaxUsableSampleCount 7 15)
      ∧ (min 7 15 &&& 4 ≠ 0 → 4 ≤ getMaxUsableSampleCount 7 15)
      ∧ (min 7 15 &&& 8 ≠ 0 → 8 ≤ getMaxUsableSampleCount 7 15)
      ∧ (min 7 15 &&& 16 ≠ 0 → 16 ≤ getMaxUsableSampleCount 7 15)
      ∧ (min 7 15 &&& 32 ≠ 0 → 32 ≤ getMaxUsableSampleCount 7 15)
      ∧ (min 7 15 &&& 64 ≠ 0 → 64 ≤ getMaxUsableSampleCount 7 15)
      ∧ (getMaxUsableSampleCount 7 15 = 1 ∨ min 7 15 &&& getMaxUsableSampleCount 7 15 ≠ 0)
      ∧ prepareSteps.head? = some PrepStep.fixSampleCount
      ∧ prepareSteps.count PrepStep.fixSampleCount = 1) :=
  ⟨by decide, C8_sample_count_selection 7 15 8 (by decide) (by decide)⟩

/-- C9: with frame delta dt ∈ (0, 0.1] (the bound `render()` enforces by
clamping) the light-intensity update contracts the distance to the target
70 by the factor 1 − 0.25·dt ∈ (0, 1), strictly decreasing it whenever the
intensity is not already 70, and the new value lies between the old value
and 70. -/
theorem C9_light_intensity_smoothing :
    ∀ (x dt : ℚ), 0 < dt → dt ≤ 1/10 →
      |lightIntUpdate x dt - 70| = (1 - 1/4 * dt) * |x - 70|
      ∧ 0 < 1 - 1/4 * dt ∧ 1 - 1/4 * dt < 1
      ∧ (x ≠ 70 → |lightIntUpdate x dt - 70| < |x - 70|)
      ∧ min x 70 ≤ lightIntUpdate x dt ∧ lightIntUpdate x dt ≤ max x 70
      ∧ (∀ dt0 : ℚ, 0 < dt0 → 0 < frameTimerClamp dt0 ∧ frameTimerClamp dt0 ≤ 1/10) := by
  intro x dt h0 h1
  have hk0 : 0 < 1 - 1/4 * dt := by linarith
  have hk1 : 1 - 1/4 * dt < 1 := by linarith
  have key : lightIntUpdate x dt - 70 = (1 - 1/4 * dt) * (x - 70) := by
    rw [lightIntUpdate]; ring
  have habs : |lightIntUpdate x dt - 70| = (1 - 1/4 * dt) * |x - 70| := by
    rw [key, abs_mul, abs_of_pos hk0]
  refine ⟨habs, hk0, hk1, ?_, ?_, ?_, ?_⟩
  · intro hne
    have hpos : 0 < |x - 70| := abs_pos.mpr (sub_ne_zero.mpr hne)
    rw [habs]
    nlinarith
  · rcases le_total x 70 with h | h
    · rw [min_eq_left h, lightIntUpdate]; nlinarith
    · rw [min_eq_right h, lightIntUpdate]; nlinarith
  · rcases le_total x 70 with h | h
    · rw [max_eq_right h, lightIntUpdate]; nlinarith
    · rw [max_eq_left h, lightIntUpdate]; nlinarith
  · intro dt0 hdt0
    rw [frameTimerClamp]
    split_ifs with hgt
    · constructor <;> norm_num
    · exact ⟨hdt0, le_of_not_lt hgt⟩

/-- C9 witness: the contraction at x = 0, dt = 1/10. -/
theorem C9_light_intensity_smoothing_witness :
    ((0:ℚ) < 1/10 ∧ (1/10:ℚ) ≤ 1/10)
    ∧ (|lightIntUpdate 0 (1/10) - 70| = (1 - 1/4 * (1/10)) * |(0:ℚ) - 70|
      ∧ (0:ℚ) < 1 - 1/4 * (1/10) ∧ (1 - 1/4 * (1/10) : ℚ) < 1
      ∧ ((0:ℚ) ≠ 70 → |lightIntUpdate 0 (1/10) - 70| < |(0:ℚ) - 70|)
      ∧ min (0:ℚ) 70 ≤ lightIntUpdate 0 (1/10) ∧ lightIntUpdate 0 (1/10) ≤ max (0:ℚ) 70
      ∧ (∀ dt0 : ℚ, 0 < dt0 → 0 < frameTimerClamp dt0 ∧ frameTimerClamp dt0 ≤ 1/10)) :=
  ⟨by norm_num, C9_light_intensity_smoothing 0 (1/10) (by norm_num) le_rfl⟩

/-- C10: the starfield draw is preceded by binding the planet group's
descriptor set (the only descriptor bind before the first draw); the frame
draws 5 groups while only 4 descriptor sets are allocated, and the pool is
sized for exactly 4 sets with 4 uniform-buffer and 4 image-sampler
descriptors. -/
theorem C10_starfield_descriptor_reuse :
    ∀ (s : RenderState) (fb : ℕ),
      ((buildFrameCmds s fb).takeWhile (fun c => !isDrawCmd c)).filter isDescrBindCmd
        = [.bindDescriptorSet s.planetDescrSet]
      ∧ ((buildFrameCmds s fb).filter isDrawCmd).length = 5
      ∧ (allocatedDescriptorSets s).length = 4
      ∧ descriptorPoolMaxSets = 4
      ∧ descriptorPoolSizes =
          [(DescriptorType.uniformBuffer, 4), (DescriptorType.combinedImageSampler, 4)] := by
  intro s fb
  exact ⟨rfl, rfl, rfl, rfl, rfl⟩

end Instancing
